import Mathlib

/-!
Verification of the ownership protocol of the single-header repository
`src/include/boost/move/unique_ptr.hpp` (boost::movelib::unique_ptr).

Runtime model: a raw pointer is modelled as a natural-number address and the
value-initialized pointer `pointer()` (the empty sentinel) is `0`. The stored
disposal policy (deleter) is modelled as a stateful value, a natural number.
Every operation whose C++ body may invoke the deleter returns, besides its
results, the list of deleter invocations that the body performs, each recorded
as a `Disposal` value saying which policy value was applied to which handle;
an operation whose body contains no deleter call returns the empty list there.

Compile-time model, for the Conversion Rule Set of lines 141-302 of the
header: a miniature C++ type fragment with a two-class hierarchy (`Derived`
publicly inherits from `Base`), cv qualification, and array-ness of the
element type of a `unique_ptr` instantiation. The predicates
`is_unique_ptr_convertible`, `unique_moveconvert_assignable`, `enable_def_del`
and `enable_up_moveconv_constr` are transcribed over that fragment.
-/

namespace BoostMove

/-- One deleter invocation: the policy value `pol` was applied to handle `ptr`. -/
structure Disposal where
  pol : Nat
  ptr : Nat
deriving DecidableEq

/-- The owner record `unique_ptr_data` (lines 61-99 of the header): the stored
pointer `m_p` and the stored deleter `d`. -/
structure unique_ptr where
  m_p : Nat
  d : Nat
deriving DecidableEq

namespace unique_ptr

/-- `pointer get() const` (lines 706-707): returns the stored pointer. -/
def get (a : unique_ptr) : Nat := a.m_p

/-- `get_deleter()` (lines 711-713): returns the stored deleter. -/
def get_deleter (a : unique_ptr) : Nat := a.d

/-- `operator explicit_bool_arg` (lines 726-733): the returned member-pointer
value is truthy exactly when `m_data.m_p` is truthy, that is, non-null. -/
def operator_bool (a : unique_ptr) : Bool := a.m_p != 0

/-- `release()` (lines 739-744): save `m_data.m_p` into `tmp`, store the
value-initialized pointer, return `tmp`. The body contains no deleter call,
hence the empty invocation list. Returns ((returned pointer, updated owner),
deleter invocations). -/
def release (a : unique_ptr) : (Nat × unique_ptr) × List Disposal :=
  let tmp := a.m_p
  ((tmp, { a with m_p := 0 }), [])

/-- The owner state right after line 764 (`m_data.m_p = p;`) of `reset` has
executed and before the conditional deleter call of line 765 runs: the new
pointer is installed, nothing is disposed yet. -/
def reset_installed (a : unique_ptr) (p : Nat) : unique_ptr :=
  { a with m_p := p }

/-- `reset(Pointer p)` (lines 759-766): save the old pointer into `tmp`
(line 763), install `p` (line 764), and only then, in the updated state,
invoke the stored deleter on `tmp` if `tmp` is non-null (line 765). The
recorded invocation takes its policy value from the post-install state. -/
def reset (a : unique_ptr) (p : Nat) : unique_ptr × List Disposal :=
  let tmp := a.m_p
  let installed := reset_installed a p
  (installed, if tmp != 0 then [⟨installed.d, tmp⟩] else [])

/-- The destructor (lines 613-614):
`if(m_data.m_p) m_data.deleter()(m_data.m_p);`. Returns the deleter
invocations the destruction performs. -/
def destructor (a : unique_ptr) : List Disposal :=
  if a.m_p != 0 then [⟨a.d, a.m_p⟩] else []

/-- The move constructor (lines 581-583):
`unique_ptr(u) : m_data(u.release(), move(u.get_deleter()))`. Returns
((constructed owner, moved-from owner), deleter invocations). The deleter of
the new owner is moved from the deleter of `u`, which `release` leaves
untouched. -/
def move_construct (u : unique_ptr) : (unique_ptr × unique_ptr) × List Disposal :=
  let r := release u
  ((⟨r.1.1, r.1.2.d⟩, r.1.2), r.2)

/-- The ownership-transfer assignment `operator=(unique_ptr)` (lines 625-630)
for a destination `dst` and a distinct source `src`:
`this->reset(u.release()); m_data.deleter() = move(u.get_deleter());`.
Returns ((updated destination, updated source), deleter invocations). -/
def move_assign (dst src : unique_ptr) : (unique_ptr × unique_ptr) × List Disposal :=
  let r := release src
  let s := reset dst r.1.1
  (({ s.1 with d := r.1.2.d }, r.1.2), r.2 ++ s.2)

/-- The ownership-transfer assignment of lines 625-630 when the source
aliases the destination (`a = move(a)`): the argument `u.release()` runs
first on the one object, then `this->reset` on the same object, then the
deleter is assigned from itself, which leaves it unchanged. -/
def move_assign_self (a : unique_ptr) : unique_ptr × List Disposal :=
  let r := release a
  let s := reset r.1.2 r.1.1
  ({ s.1 with d := s.1.d }, r.2 ++ s.2)

/-- `swap(unique_ptr& u)` (lines 788-793): exchange the stored pointers and
the stored deleters of the two owners. The body contains no deleter call. -/
def swap (a u : unique_ptr) : (unique_ptr × unique_ptr) × List Disposal :=
  ((⟨u.m_p, u.d⟩, ⟨a.m_p, a.d⟩), [])

/-- `operator==` on two owners (lines 804-806): `x.get() == y.get()`. -/
def op_eq (x y : unique_ptr) : Bool := get x == get y

/-- `operator<` on two owners (lines 818-820): `x.get() < y.get()`, the
native ordering of the pointer type. -/
def op_lt (x y : unique_ptr) : Bool := decide (get x < get y)

/-- `operator<(x, nullptr_type)` (lines 867-872): `x.get() < pointer()`,
comparing against the value-initialized pointer. -/
def op_lt_nullptr (x : unique_ptr) : Bool := decide (get x < 0)

end unique_ptr

/-- The number of deleter invocations performed on handle `h` in an
invocation list. -/
def countOn (h : Nat) (tr : List Disposal) : Nat :=
  (tr.filter (fun e => e.ptr == h)).length

/-- The class hierarchy of the conversion-rule fragment: `Derived` publicly
inherits from `Base`. -/
inductive Cls
| Base
| Derived
deriving DecidableEq

/-- An object-pointer type `cv C *` of the fragment: pointee class and its cv
qualification. -/
structure PtrTy where
  cls : Cls
  is_const : Bool
  is_volatile : Bool
deriving DecidableEq

/-- `is_convertible<P1, P2>` restricted to the object-pointer types of the
fragment: a pointer converts implicitly when the pointee classes are identical
or the source class derives from the target class, and the target pointee is
at least as cv-qualified as the source pointee. -/
def is_convertible (p q : PtrTy) : Bool :=
  (p.cls == q.cls || (p.cls == Cls.Derived && q.cls == Cls.Base))
    && (!p.is_const || q.is_const) && (!p.is_volatile || q.is_volatile)

/-- `get_cvelement` (lines 163-167): the pointee type stripped of cv. -/
def get_cvelement (p : PtrTy) : Cls := p.cls

/-- `is_same_cvelement_and_convertible` (lines 169-177): the cv-stripped
pointees are the same type and the pointer conversion is implicit. -/
def is_same_cvelement_and_convertible (p1 p2 : PtrTy) : Bool :=
  (get_cvelement p1 == get_cvelement p2) && is_convertible p1 p2

/-- `is_unique_ptr_convertible<IsArray, FromPointer, ThisPointer>`
(lines 179-187): the array-mode primary template requires identical
cv-stripped pointees on top of convertibility; the non-array specialization
is plain implicit convertibility. -/
def is_unique_ptr_convertible (isArray : Bool) (fromP thisP : PtrTy) : Bool :=
  if isArray then is_same_cvelement_and_convertible fromP thisP
  else is_convertible fromP thisP

/-- An element type `T` of a `unique_ptr<T>` instantiation in the fragment: a
possibly cv-qualified class, in single-object mode or in array (`T[]`) mode. -/
structure ElemTy where
  cls : Cls
  is_const : Bool
  is_volatile : Bool
  is_array : Bool
deriving DecidableEq

/-- `pointer_type<T, D>::type` for a deleter with no nested `pointer` typedef
(the default deleter): `remove_extent<T>::type*`. -/
def pointer_type (t : ElemTy) : PtrTy := ⟨t.cls, t.is_const, t.is_volatile⟩

/-- `unique_moveconvert_assignable<T, D, U, E>` (lines 224-236) at the
default pointer types: the primary template for non-array `T` requires `U`
non-array and non-array-mode pointer convertibility, the `T[]` partial
specialization requires `U` array and array-mode pointer convertibility.
`t` is the destination element type `T`, `u` the source element type `U`. -/
def unique_moveconvert_assignable (t u : ElemTy) : Bool :=
  if t.is_array then
    u.is_array && is_unique_ptr_convertible true (pointer_type u) (pointer_type t)
  else
    !u.is_array && is_unique_ptr_convertible false (pointer_type u) (pointer_type t)

/-- `enable_def_del<U, T>` (lines 193-199): the gate of the converting
constructor of `default_delete<T>` from `default_delete<U>` — the two element
types agree on array-ness and `remove_extent<U>::type*` is unique-ptr
convertible to `remove_extent<T>::type*` in the mode of `T`. -/
def enable_def_del (u t : ElemTy) : Bool :=
  (t.is_array == u.is_array)
    && is_unique_ptr_convertible t.is_array (pointer_type u) (pointer_type t)

/-- `unique_deleter_is_initializable<D, E>` (lines 247-296) instantiated at
the default deleters `D = default_delete<T>`, `E = default_delete<U>`
(non-reference deleter types): an rvalue `E` initializes `D` exactly when
`E` is `D` itself (copy/move construction) or the converting constructor of
`default_delete` applies. -/
def unique_deleter_is_initializable (t u : ElemTy) : Bool :=
  u == t || enable_def_del u t

/-- `enable_up_moveconv_constr<T, D, U, E>` (lines 298-302) at the default
deleters: the converting move constructor participates in overload resolution
iff `unique_moveconvert_assignable` and `unique_deleter_is_initializable`
both hold. -/
def enable_up_moveconv_constr (t u : ElemTy) : Bool :=
  unique_moveconvert_assignable t u && unique_deleter_is_initializable t u

/-- The element type `Derived` in single-object mode. -/
def derived_single : ElemTy := ⟨Cls.Derived, false, false, false⟩

/-- The element type `Base` in single-object mode. -/
def base_single : ElemTy := ⟨Cls.Base, false, false, false⟩

/-- The element type `Derived[]` (array mode). -/
def derived_array : ElemTy := ⟨Cls.Derived, false, false, true⟩

/-- The element type `Base[]` (array mode). -/
def base_array : ElemTy := ⟨Cls.Base, false, false, true⟩

/-- C1: move construction is a complete handoff — the constructed owner holds
the source's prior handle, the source is left empty, the transfer itself
invokes no disposal, destroying both owners afterwards disposes a non-empty
transferred handle exactly once and never twice, and the two resulting owners
never both hold the same non-empty handle. -/
theorem c1_move_construct_complete_handoff (a : unique_ptr) :
    (unique_ptr.move_construct a).1.1.get = a.get
    ∧ (unique_ptr.move_construct a).1.2.get = 0
    ∧ (unique_ptr.move_construct a).2 = []
    ∧ (a.get ≠ 0 →
        countOn a.get
          (unique_ptr.destructor (unique_ptr.move_construct a).1.1
            ++ unique_ptr.destructor (unique_ptr.move_construct a).1.2) = 1)
    ∧ countOn a.get
        (unique_ptr.destructor (unique_ptr.move_construct a).1.1
          ++ unique_ptr.destructor (unique_ptr.move_construct a).1.2) ≤ 1
    ∧ ¬((unique_ptr.move_construct a).1.1.get ≠ 0
        ∧ (unique_ptr.move_construct a).1.1.get = (unique_ptr.move_construct a).1.2.get) := by
  obtain ⟨p, d⟩ := a
  by_cases h : p = 0 <;>
    simp [unique_ptr.move_construct, unique_ptr.release, unique_ptr.destructor,
      unique_ptr.get, countOn, h]

/-- C2: release returns the handle held immediately before the call, leaves
the owner holding the empty sentinel, performs no deleter invocation in its
body, and destroying the owner afterwards performs no disposal at all. -/
theorem c2_release_hands_back_without_disposal (a : unique_ptr) :
    (unique_ptr.release a).1.1 = a.get
    ∧ (unique_ptr.release a).1.2.get = 0
    ∧ (unique_ptr.release a).2 = []
    ∧ unique_ptr.destructor (unique_ptr.release a).1.2 = [] := by
  simp [unique_ptr.release, unique_ptr.get, unique_ptr.destructor]

/-- C3: reset first installs the new handle — the resulting state is exactly
the post-install state, whose handle is already the new one — and only then
disposes the captured old handle if it was non-empty, using the policy of the
post-install state; afterwards the owner holds the new handle, a non-empty
old handle is disposed exactly once, and reset on an empty owner invokes no
disposal. -/
theorem c3_reset_installs_then_disposes (a : unique_ptr) (p : Nat) :
    (unique_ptr.reset a p).1 = unique_ptr.reset_installed a p
    ∧ (unique_ptr.reset_installed a p).get = p
    ∧ (unique_ptr.reset a p).1.get = p
    ∧ (unique_ptr.reset a p).2 =
        (if a.get ≠ 0 then [⟨(unique_ptr.reset_installed a p).d, a.get⟩] else [])
    ∧ (a.get ≠ 0 → countOn a.get (unique_ptr.reset a p).2 = 1)
    ∧ (a.get = 0 → (unique_ptr.reset a p).2 = []) := by
  obtain ⟨q, d⟩ := a
  by_cases h : q = 0 <;>
    simp [unique_ptr.reset, unique_ptr.reset_installed, unique_ptr.get, countOn, h]

/-- C4: ownership-transfer assignment from a distinct source disposes the
destination's non-empty prior handle (if any) via the destination's own prior
policy, adopts the source's handle, leaves the source empty, and installs the
source's policy in the destination's policy slot. -/
theorem c4_move_assign_disposes_then_adopts (dst src : unique_ptr) :
    (unique_ptr.move_assign dst src).1.1.get = src.get
    ∧ (unique_ptr.move_assign dst src).1.2.get = 0
    ∧ (unique_ptr.move_assign dst src).1.1.get_deleter = src.get_deleter
    ∧ (unique_ptr.move_assign dst src).2 =
        (if dst.get ≠ 0 then [⟨dst.get_deleter, dst.get⟩] else [])
    ∧ (dst.get ≠ 0 → countOn dst.get (unique_ptr.move_assign dst src).2 = 1) := by
  obtain ⟨p, d⟩ := dst
  by_cases h : p = 0 <;>
    simp [unique_ptr.move_assign, unique_ptr.release, unique_ptr.reset,
      unique_ptr.reset_installed, unique_ptr.get, unique_ptr.get_deleter, countOn, h]

/-- C5: the Conversion Rule Set accepts the single-object-mode upcast from a
`Derived` owner to a `Base` owner with the same (default) disposal policy,
rejects the analogous array-mode conversion, reduces single-object mode to
plain implicit pointer convertibility, and in array mode forces the two
element types to be identical after stripping const/volatile. -/
theorem c5_conversion_rule_set :
    enable_up_moveconv_constr base_single derived_single = true
    ∧ enable_up_moveconv_constr base_array derived_array = false
    ∧ unique_moveconvert_assignable base_array derived_array = false
    ∧ (∀ p q : PtrTy, is_unique_ptr_convertible false p q = is_convertible p q)
    ∧ (∀ t u : ElemTy, t.is_array = true →
        unique_moveconvert_assignable t u = true → u.cls = t.cls) := by
  refine ⟨by decide, by decide, by decide, fun p q => rfl, ?_⟩
  intro t u ht hc
  simp [unique_moveconvert_assignable, ht, is_unique_ptr_convertible,
    is_same_cvelement_and_convertible, get_cvelement, pointer_type] at hc
  exact hc.2.1

/-- C6: the destructor invokes the disposal policy on a non-empty stored
handle exactly once, and performs no deleter invocation at all when the
stored handle is the empty sentinel. -/
theorem c6_destructor_disposes_once_or_not_at_all (a : unique_ptr) :
    (a.get ≠ 0 →
        unique_ptr.destructor a = [⟨a.get_deleter, a.get⟩]
        ∧ countOn a.get (unique_ptr.destructor a) = 1)
    ∧ (a.get = 0 → unique_ptr.destructor a = []) := by
  obtain ⟨p, d⟩ := a
  by_cases h : p = 0 <;>
    simp [unique_ptr.destructor, unique_ptr.get, unique_ptr.get_deleter, countOn, h]

/-- C7: swap exchanges handle and policy with no deleter invocation, and
performing it twice restores both owners to their original handle and policy
values. -/
theorem c7_swap_is_its_own_inverse (a b : unique_ptr) :
    (unique_ptr.swap (unique_ptr.swap a b).1.1 (unique_ptr.swap a b).1.2).1.1 = a
    ∧ (unique_ptr.swap (unique_ptr.swap a b).1.1 (unique_ptr.swap a b).1.2).1.2 = b
    ∧ (unique_ptr.swap a b).2 = [] := by
  simp [unique_ptr.swap]

/-- C8: the boolean conversion of an owner is true exactly when its stored
handle differs from the empty sentinel. -/
theorem c8_operator_bool_iff_nonempty (a : unique_ptr) :
    unique_ptr.operator_bool a = true ↔ a.get ≠ 0 := by
  simp [unique_ptr.operator_bool, unique_ptr.get]

/-- C9: owner equality holds exactly when the stored handles are equal, the
strict order and equality never hold together, and the comparison of an owner
against the empty sentinel with the strict order holds exactly when its
handle is below the value-initialized pointer in the handle type's native
ordering. -/
theorem c9_comparison_operators (x y : unique_ptr) :
    (unique_ptr.op_eq x y = true ↔ x.get = y.get)
    ∧ ¬(unique_ptr.op_lt x y = true ∧ unique_ptr.op_eq x y = true)
    ∧ (unique_ptr.op_lt_nullptr x = true ↔ x.get < 0) := by
  refine ⟨by simp [unique_ptr.op_eq, unique_ptr.get], ?_, by simp [unique_ptr.op_lt_nullptr]⟩
  simp only [unique_ptr.op_lt, unique_ptr.op_eq, decide_eq_true_eq, beq_iff_eq, not_and]
  intro hlt heq
  omega

/-- C10: self ownership-transfer assignment is a handle-preserving no-op:
the owner keeps its handle and policy and no deleter invocation occurs,
because the argument-side release empties the owner before reset reinstalls
the released handle. -/
theorem c10_self_move_assign_noop (a : unique_ptr) :
    (unique_ptr.move_assign_self a).1.get = a.get
    ∧ (unique_ptr.move_assign_self a).1.get_deleter = a.get_deleter
    ∧ (unique_ptr.move_assign_self a).2 = [] := by
  simp [unique_ptr.move_assign_self, unique_ptr.release, unique_ptr.reset,
    unique_ptr.reset_installed, unique_ptr.get, unique_ptr.get_deleter]

end BoostMove
